import Mathlib

/-!
Shallow embedding of the calibration module of the phenomenal repository
(src/src/openalea/phenomenal/calibration/calibration.py), together with
theorems checking the natural-language specification against it.

Numbers are modelled by real numbers.  Python's float modulo `x % m` (for
m > 0) is `x - m * floor (x / m)`, embedded below as `pymod`.  The helper
module files frame.py and transformations.py are not part of the sources;
the definitions that come from them (Frame, the elemental rotation
matrices, matrix concatenation) are modelled from the spec and marked as
such in their doc comments.
-/

open Real

noncomputable section

namespace Phenomenal

/-- Python float modulo for a positive modulus: x % m = x - m * floor (x / m). -/
def pymod (x m : ℝ) : ℝ := x - m * (⌊x / m⌋ : ℤ)

theorem pymod_eq_fract (x m : ℝ) (hm : m ≠ 0) :
    pymod x m = m * Int.fract (x / m) := by
  unfold pymod Int.fract
  field_simp

theorem pymod_nonneg (x m : ℝ) (hm : 0 < m) : 0 ≤ pymod x m := by
  rw [pymod_eq_fract x m (ne_of_gt hm)]
  exact mul_nonneg hm.le (Int.fract_nonneg _)

theorem pymod_lt (x m : ℝ) (hm : 0 < m) : pymod x m < m := by
  rw [pymod_eq_fract x m (ne_of_gt hm)]
  nlinarith [Int.fract_lt_one (x / m), Int.fract_nonneg (x / m)]

theorem pymod_sub_int (x m : ℝ) : ∃ k : ℤ, x - pymod x m = k * m := by
  exact ⟨⌊x / m⌋, by unfold pymod; ring⟩

theorem pymod_eq_self (x m : ℝ) (h0 : 0 ≤ x) (hm : 0 < m) (hx : x < m) :
    pymod x m = x := by
  unfold pymod
  have : ⌊x / m⌋ = 0 := by
    rw [Int.floor_eq_zero_iff]
    constructor
    · positivity
    · rw [div_lt_one hm]; exact hx
  rw [this]
  simp

/-- normalise_angle, transcribed from calibration.py lines 49-56:
angle %= 2*pi; angle = (angle + 2*pi) % (2*pi); angle - (2*pi if angle > pi else 0). -/
def normalise_angle (angle : ℝ) : ℝ :=
  let modulo := 2 * π
  let a := pymod angle modulo
  let a2 := pymod (a + modulo) modulo
  a2 - (if a2 > modulo / 2 then modulo else 0)

/-- The element-wise action on an array input (numpy broadcasts the same
scalar computation over every entry). -/
def normalise_angle_array (angles : List ℝ) : List ℝ :=
  angles.map normalise_angle

/-- Claim C10: for every real input angle, normalise_angle returns a value
congruent to the input modulo 2*pi lying in the half-open interval
(-pi, pi]; pi itself maps to pi, and inputs just above pi land in the
negative half.  The array version acts element-wise. -/
theorem normalise_angle_spec :
    (∀ x : ℝ, normalise_angle x ∈ Set.Ioc (-π) π ∧
      ∃ k : ℤ, x - normalise_angle x = k * (2 * π)) ∧
    normalise_angle π = π ∧
    (∀ x : ℝ, π < x → x < 2 * π → normalise_angle x < 0) ∧
    (∀ xs : List ℝ, normalise_angle_array xs = xs.map normalise_angle) := by
  have h2pi : (0 : ℝ) < 2 * π := by positivity
  refine ⟨?_, ?_, ?_, fun xs => rfl⟩
  · intro x
    constructor
    · simp only [normalise_angle]
      have ha2_lo : 0 ≤ pymod (pymod x (2 * π) + 2 * π) (2 * π) :=
        pymod_nonneg _ _ h2pi
      have ha2_hi : pymod (pymod x (2 * π) + 2 * π) (2 * π) < 2 * π :=
        pymod_lt _ _ h2pi
      set a2 := pymod (pymod x (2 * π) + 2 * π) (2 * π) with ha2
      by_cases hgt : a2 > 2 * π / 2
      · rw [if_pos hgt]
        constructor
        · nlinarith [pi_pos]
        · nlinarith [pi_pos]
      · rw [if_neg hgt]
        push_neg at hgt
        constructor
        · nlinarith [pi_pos]
        · nlinarith [pi_pos]
    · simp only [normalise_angle]
      obtain ⟨k1, hk1⟩ := pymod_sub_int x (2 * π)
      obtain ⟨k2, hk2⟩ := pymod_sub_int (pymod x (2 * π) + 2 * π) (2 * π)
      by_cases hgt : pymod (pymod x (2 * π) + 2 * π) (2 * π) > 2 * π / 2
      · refine ⟨k1 + k2 - 1 + 1, ?_⟩
        rw [if_pos hgt]
        push_cast
        nlinarith [hk1, hk2]
      · refine ⟨k1 + k2 - 1, ?_⟩
        rw [if_neg hgt]
        push_cast
        nlinarith [hk1, hk2]
  · have hpi_lt : π < 2 * π := by nlinarith [pi_pos]
    have h1 : pymod π (2 * π) = π := pymod_eq_self _ _ pi_pos.le h2pi hpi_lt
    simp only [normalise_angle]
    rw [h1]
    have h2 : pymod (π + 2 * π) (2 * π) = π := by
      unfold pymod
      have : ⌊(π + 2 * π) / (2 * π)⌋ = 1 := by
        rw [Int.floor_eq_iff]
        constructor
        · push_cast
          rw [le_div_iff₀ h2pi]
          nlinarith [pi_pos]
        · push_cast
          rw [div_lt_iff₀ h2pi]
          nlinarith [pi_pos]
      rw [this]
      push_cast
      ring
    rw [h2]
    have : ¬ (π > 2 * π / 2) := by norm_num
    rw [if_neg this]
    simp
  · intro x hlo hhi
    have hx0 : 0 ≤ x := by nlinarith [pi_pos]
    have h1 : pymod x (2 * π) = x := pymod_eq_self _ _ hx0 h2pi hhi
    simp only [normalise_angle]
    rw [h1]
    have h2 : pymod (x + 2 * π) (2 * π) = x := by
      unfold pymod
      have : ⌊(x + 2 * π) / (2 * π)⌋ = 1 := by
        rw [Int.floor_eq_iff]
        constructor
        · push_cast
          rw [le_div_iff₀ h2pi]
          nlinarith
        · push_cast
          rw [div_lt_iff₀ h2pi]
          nlinarith
      rw [this]
      push_cast
      ring
    rw [h2]
    have : x > 2 * π / 2 := by nlinarith
    rw [if_pos this]
    nlinarith

/-- Claim C10 witness: normalise_angle at the concrete input 5
(which lies in (pi, 2*pi)) is negative and lies in (-pi, pi]. -/
theorem normalise_angle_spec_witness :
    normalise_angle 5 < 0 ∧ normalise_angle 5 ∈ Set.Ioc (-π) π := by
  constructor
  · exact normalise_angle_spec.2.2.1 5
      (by nlinarith [pi_lt_d2]) (by nlinarith [pi_gt_three])
  · exact (normalise_angle_spec.1 5).1

/-! ## Geometry: points, matrices, frames -/

/-- A 3D point or vector. -/
abbrev V3 := Fin 3 → ℝ

/-- A 3x3 real matrix.  The source works with 4x4 homogeneous matrices and
always extracts the rotation block rot[:3,:3]; for pure rotations about
axes through the origin the fourth row and column are fixed padding, so the
embedding works with the 3x3 rotation blocks directly. -/
abbrev M3 := Matrix (Fin 3) (Fin 3) ℝ

/-- Modelled from the spec: rotation-matrix construction around a world
axis (transformations.rotation_matrix applied to x_axis); standard
right-handed elemental rotation about X. -/
def Rx (t : ℝ) : M3 :=
  Matrix.of ![![1, 0, 0], ![0, Real.cos t, -Real.sin t], ![0, Real.sin t, Real.cos t]]

/-- Modelled from the spec: elemental rotation about the world Y axis. -/
def Ry (t : ℝ) : M3 :=
  Matrix.of ![![Real.cos t, 0, Real.sin t], ![0, 1, 0], ![-Real.sin t, 0, Real.cos t]]

/-- Modelled from the spec: elemental rotation about the world Z axis. -/
def Rz (t : ℝ) : M3 :=
  Matrix.of ![![Real.cos t, -Real.sin t, 0], ![Real.sin t, Real.cos t, 0], ![0, 0, 1]]

/-- Modelled from the spec: composition ("concatenation") of multiple
rotations (transformations.concatenate_matrices), the ordered matrix
product starting from the identity. -/
def concatenate_matrices (ms : List M3) : M3 :=
  ms.foldl (fun acc m => acc * m) 1

/-- Modelled from the spec (section 4.1): a rigid 3D coordinate frame
owning a rotation matrix (used as the local-to-world rotation) and an
origin. -/
structure Frame where
  rotation : M3
  origin : V3

/-- Modelled from the spec: global_point(p) = R * p + origin. -/
def Frame.global_point (f : Frame) (p : V3) : V3 :=
  f.rotation.mulVec p + f.origin

/-- Modelled from the spec: local_point(p) = transpose R * (p - origin). -/
def Frame.local_point (f : Frame) (p : V3) : V3 :=
  f.rotation.transpose.mulVec (p - f.origin)

/-- math.radians: degrees to radians. -/
def radians (deg : ℝ) : ℝ := deg * π / 180

/-- CalibrationCamera.pixel_coordinates (calibration.py lines 103-125),
single-point case: u = x / z * fx + width / 2, v = y / z * fy + height / 2. -/
def pixel_coordinates (point_3d : V3)
    (width_image height_image focal_length_x focal_length_y : ℝ) : ℝ × ℝ :=
  (point_3d 0 / point_3d 2 * focal_length_x + width_image / 2,
   point_3d 1 / point_3d 2 * focal_length_y + height_image / 2)

/-- CalibrationCamera.pixel_coordinates on a batch input of shape (N, 3):
numpy broadcasts the same column arithmetic over every row. -/
def pixel_coordinates_batch (points : List V3)
    (width_image height_image focal_length_x focal_length_y : ℝ) : List (ℝ × ℝ) :=
  points.map fun p =>
    pixel_coordinates p width_image height_image focal_length_x focal_length_y

/-- Claim C8: pixel_coordinates returns u = (x/z)*fx + width/2 and
v = (y/z)*fy + height/2 for z different from 0, and the batch version maps
row k of the input to the same formula applied to row k. -/
theorem pixel_coordinates_spec :
    (∀ (p : V3) (w h fx fy : ℝ), p 2 ≠ 0 →
      pixel_coordinates p w h fx fy =
        (p 0 / p 2 * fx + w / 2, p 1 / p 2 * fy + h / 2)) ∧
    (∀ (ps : List V3) (w h fx fy : ℝ) (k : ℕ),
      (pixel_coordinates_batch ps w h fx fy)[k]? =
        (ps[k]?).map fun p => pixel_coordinates p w h fx fy) := by
  constructor
  · intro p w h fx fy _
    rfl
  · intro ps w h fx fy k
    unfold pixel_coordinates_batch
    rw [List.getElem?_map]

/-- Claim C8 witness: the projection formula at the concrete camera-frame
point (1, 2, 4) with image size 10 x 20 and focal lengths 2 and 3. -/
theorem pixel_coordinates_spec_witness :
    (![1, 2, 4] : V3) 2 ≠ 0 ∧
      pixel_coordinates ![1, 2, 4] 10 20 2 3 = (11 / 2, 23 / 2) := by
  have hz : (![1, 2, 4] : V3) 2 ≠ 0 := by norm_num
  refine ⟨hz, ?_⟩
  rw [pixel_coordinates_spec.1 ![1, 2, 4] 10 20 2 3 hz]
  norm_num

/-- CalibrationCamera.target_frame (calibration.py lines 149-165): origin
is the base position rotated about world Z by alpha, rotation is built by
concatenating Rz(alpha + rot_z), Rx(rot_x), Ry(rot_y) and transposing. -/
def target_frame (pos_x pos_y pos_z rot_x rot_y rot_z alpha : ℝ) : Frame :=
  { rotation :=
      (concatenate_matrices [Rz (alpha + rot_z), Rx rot_x, Ry rot_y]).transpose
    origin := ![pos_x * Real.cos alpha - pos_y * Real.sin alpha,
                pos_x * Real.sin alpha + pos_y * Real.cos alpha,
                pos_z] }

/-- CalibrationCamera.camera_frame (calibration.py lines 167-181): origin
is the camera position, rotation concatenates the fixed origin-axis matrix
with Rx, Ry, Rz and transposes. -/
def camera_frame (pos_x pos_y pos_z rot_x rot_y rot_z : ℝ) (origin_mat : M3) : Frame :=
  { rotation :=
      (concatenate_matrices [origin_mat, Rx rot_x, Ry rot_y, Rz rot_z]).transpose
    origin := ![pos_x, pos_y, pos_z] }

/-- Claim C7: target_frame returns a Frame whose origin is the base
position rotated about the world Z axis by alpha and whose rotation is the
transpose of the composition, in the order Z then X then Y, of the
elemental rotations by alpha + rot_z about Z, rot_x about X and rot_y
about Y. -/
theorem target_frame_spec (pos_x pos_y pos_z rot_x rot_y rot_z alpha : ℝ) :
    (target_frame pos_x pos_y pos_z rot_x rot_y rot_z alpha).rotation =
      (Rz (alpha + rot_z) * Rx rot_x * Ry rot_y).transpose ∧
    (target_frame pos_x pos_y pos_z rot_x rot_y rot_z alpha).origin =
      ![pos_x * Real.cos alpha - pos_y * Real.sin alpha,
        pos_x * Real.sin alpha + pos_y * Real.cos alpha,
        pos_z] := by
  constructor
  · show (concatenate_matrices [Rz (alpha + rot_z), Rx rot_x, Ry rot_y]).transpose = _
    have h : concatenate_matrices [Rz (alpha + rot_z), Rx rot_x, Ry rot_y] =
        1 * Rz (alpha + rot_z) * Rx rot_x * Ry rot_y := rfl
    rw [h, one_mul]
  · rfl

/-! ## The CalibrationCamera entity and its projection function (C2) -/

/-- The fitted numeric parameters of a CalibrationCamera, with the fixed
origin-axis rotation already extracted as its 3x3 block. -/
structure CalibrationCamera where
  cam_width_image : ℝ
  cam_height_image : ℝ
  cam_focal_length_x : ℝ
  cam_focal_length_y : ℝ
  cam_pos_x : ℝ
  cam_pos_y : ℝ
  cam_pos_z : ℝ
  cam_rot_x : ℝ
  cam_rot_y : ℝ
  cam_rot_z : ℝ
  angle_factor : ℝ
  origin_mat : M3

/-- CalibrationCamera.get_camera_frame (calibration.py lines 183-187). -/
def CalibrationCamera.get_camera_frame (c : CalibrationCamera) : Frame :=
  camera_frame c.cam_pos_x c.cam_pos_y c.cam_pos_z
    c.cam_rot_x c.cam_rot_y c.cam_rot_z c.origin_mat

/-- CalibrationCamera.get_projection (calibration.py lines 189-212),
transcribed exactly: note that the source rebinds x before computing y,
so y is computed from the already-updated x. -/
def CalibrationCamera.get_projection (c : CalibrationCamera) (alpha : ℝ)
    (pts : V3) : ℝ × ℝ :=
  let fr_cam := c.get_camera_frame
  let angle := radians (alpha * c.angle_factor)
  let x := pts 0 * Real.cos angle - pts 1 * Real.sin angle
  let y := x * Real.sin angle + pts 1 * Real.cos angle
  pixel_coordinates (fr_cam.local_point ![x, y, pts 2])
    c.cam_width_image c.cam_height_image c.cam_focal_length_x c.cam_focal_length_y

/-- Rotation of a point about the world Z axis, as the claim states it:
(x cos a - y sin a, x sin a + y cos a, z) with both components computed
from the original coordinates. -/
def rotate_z_point (a : ℝ) (p : V3) : V3 :=
  ![p 0 * Real.cos a - p 1 * Real.sin a,
    p 0 * Real.sin a + p 1 * Real.cos a,
    p 2]

/-- The projection as claim C2 describes it: rotate the world point about
Z by radians(alpha * angle_factor), transform into the camera frame, then
apply the pinhole model. -/
def CalibrationCamera.get_projection_claimed (c : CalibrationCamera)
    (alpha : ℝ) (pts : V3) : ℝ × ℝ :=
  pixel_coordinates
    (c.get_camera_frame.local_point
      (rotate_z_point (radians (alpha * c.angle_factor)) pts))
    c.cam_width_image c.cam_height_image c.cam_focal_length_x c.cam_focal_length_y

theorem Rx_zero : Rx 0 = 1 := by
  ext i j
  fin_cases i <;> fin_cases j <;>
    simp [Rx, Matrix.one_apply, Real.cos_zero, Real.sin_zero,
      Matrix.vecHead, Matrix.vecTail]

theorem Ry_zero : Ry 0 = 1 := by
  ext i j
  fin_cases i <;> fin_cases j <;>
    simp [Ry, Matrix.one_apply, Real.cos_zero, Real.sin_zero,
      Matrix.vecHead, Matrix.vecTail]

theorem Rz_zero : Rz 0 = 1 := by
  ext i j
  fin_cases i <;> fin_cases j <;>
    simp [Rz, Matrix.one_apply, Real.cos_zero, Real.sin_zero,
      Matrix.vecHead, Matrix.vecTail]

theorem vec3_zero : (![0, 0, 0] : V3) = 0 := by
  funext i
  fin_cases i <;> rfl

theorem camera_frame_id :
    camera_frame 0 0 0 0 0 0 (1 : M3) = { rotation := 1, origin := ![0, 0, 0] } := by
  unfold camera_frame
  have h : concatenate_matrices [(1 : M3), Rx 0, Ry 0, Rz 0] =
      1 * 1 * Rx 0 * Ry 0 * Rz 0 := rfl
  rw [h, Rx_zero, Ry_zero, Rz_zero, one_mul, one_mul, one_mul, one_mul,
    Matrix.transpose_one]

theorem local_point_id (p : V3) :
    Frame.local_point { rotation := 1, origin := ![0, 0, 0] } p = p := by
  unfold Frame.local_point
  rw [vec3_zero, sub_zero, Matrix.transpose_one, Matrix.one_mulVec]

/-- A fully concrete camera: image size 0 x 0, both focal lengths 1,
position and rotation all zero, angle factor 1, identity origin axis. -/
def exampleCamera : CalibrationCamera :=
  { cam_width_image := 0, cam_height_image := 0
    cam_focal_length_x := 1, cam_focal_length_y := 1
    cam_pos_x := 0, cam_pos_y := 0, cam_pos_z := 0
    cam_rot_x := 0, cam_rot_y := 0, cam_rot_z := 0
    angle_factor := 1
    origin_mat := 1 }

/-- Claim C2: the code evaluated at the failing input.  For the identity
camera at acquisition angle 90 (so the rotation angle is pi/2) and the
world point (1, 0, 5), get_projection returns (0, 0) because the y
component is computed from the already rotated x, whereas the claimed
composition (rotate about Z, then camera frame, then pinhole) gives
(0, 1/5). -/
theorem get_projection_aliasing_bug :
    exampleCamera.get_projection 90 ![1, 0, 5] = (0, 0) ∧
    exampleCamera.get_projection_claimed 90 ![1, 0, 5] = (0, 1 / 5) := by
  have hframe : exampleCamera.get_camera_frame =
      { rotation := 1, origin := ![0, 0, 0] } := camera_frame_id
  have haf : exampleCamera.angle_factor = 1 := rfl
  have hw : exampleCamera.cam_width_image = 0 := rfl
  have hh : exampleCamera.cam_height_image = 0 := rfl
  have hfx : exampleCamera.cam_focal_length_x = 1 := rfl
  have hfy : exampleCamera.cam_focal_length_y = 1 := rfl
  have hangle : radians 90 = π / 2 := by
    unfold radians
    ring
  constructor
  · simp only [CalibrationCamera.get_projection, hframe, haf, mul_one,
      hangle, hw, hh, hfx, hfy, Real.cos_pi_div_two, Real.sin_pi_div_two,
      local_point_id, pixel_coordinates, Matrix.cons_val_zero,
      Matrix.cons_val_one, Matrix.cons_val_two, Matrix.head_cons,
      Matrix.vecHead, Matrix.vecTail, Function.comp]
    norm_num
  · simp only [CalibrationCamera.get_projection_claimed, hframe, haf,
      mul_one, hangle, hw, hh, hfx, hfy, rotate_z_point,
      Real.cos_pi_div_two, Real.sin_pi_div_two, local_point_id,
      pixel_coordinates, Matrix.cons_val_zero, Matrix.cons_val_one,
      Matrix.cons_val_two, Matrix.head_cons, Matrix.vecHead,
      Matrix.vecTail, Function.comp]
    norm_num

/-! ## Multi-start optimization (C6) -/

/-- One step of the best-so-far update in find_parameters.  The source
keeps (best_parameters, min_err) starting from (None, float inf) and
replaces them when the new attempt's error is strictly smaller; since
every real error is below the initial infinity, the first attempt always
replaces the initial None, which is what the none case encodes. -/
def selectBest {α : Type} (err : α → ℝ) : Option α → α → Option α
  | none, p => some p
  | some b, p => if err p < err b then some p else some b

/-- CalibrationCameraTop.find_parameters (calibration.py lines 308-340),
abstracted over the stochastic optimizer: attempts i stands for the
converged parameter vector produced by the i-th random restart (the
random initial guess and scipy.optimize.minimize are oracles), and err is
the objective fit_function evaluated at a converged vector.  The loop
runs over range(number_of_repetition + 1) keeping the best result. -/
def find_parameters {α : Type} (err : α → ℝ) (attempts : ℕ → α)
    (number_of_repetition : ℕ) : Option α :=
  ((List.range (number_of_repetition + 1)).map attempts).foldl (selectBest err) none

theorem selectBest_foldl {α : Type} (err : α → ℝ) (l : List α) (b : α) :
    ∃ r, l.foldl (selectBest err) (some b) = some r ∧ (r = b ∨ r ∈ l) ∧
      err r ≤ err b ∧ ∀ x ∈ l, err r ≤ err x := by
  induction l generalizing b with
  | nil => exact ⟨b, rfl, Or.inl rfl, le_refl _, by simp⟩
  | cons a t ih =>
    simp only [List.foldl_cons, selectBest]
    by_cases h : err a < err b
    · rw [if_pos h]
      obtain ⟨r, hr, hmem, hle, hall⟩ := ih a
      refine ⟨r, hr, ?_, le_trans hle (le_of_lt h), ?_⟩
      · rcases hmem with rfl | hm
        · exact Or.inr (List.mem_cons_self _ _)
        · exact Or.inr (List.mem_cons_of_mem _ hm)
      · intro x hx
        rcases List.mem_cons.mp hx with rfl | hx2
        · exact hle
        · exact hall x hx2
    · rw [if_neg h]
      push_neg at h
      obtain ⟨r, hr, hmem, hle, hall⟩ := ih b
      refine ⟨r, hr, ?_, hle, ?_⟩
      · rcases hmem with rfl | hm
        · exact Or.inl rfl
        · exact Or.inr (List.mem_cons_of_mem _ hm)
      · intro x hx
        rcases List.mem_cons.mp hx with rfl | hx2
        · exact le_trans hle h
        · exact hall x hx2

/-- Claim C6: find_parameters folds over exactly n + 1 converged attempts
and returns the converged result of one of them whose objective value is
at most the objective value of every attempt's converged result. -/
theorem find_parameters_best {α : Type} (err : α → ℝ) (attempts : ℕ → α)
    (n : ℕ) :
    ((List.range (n + 1)).map attempts).length = n + 1 ∧
    ∃ k, k < n + 1 ∧ find_parameters err attempts n = some (attempts k) ∧
      ∀ i, i < n + 1 → err (attempts k) ≤ err (attempts i) := by
  refine ⟨by simp, ?_⟩
  obtain ⟨r, hr, hmem, hle, hall⟩ :=
    selectBest_foldl err (((List.range n).map Nat.succ).map attempts) (attempts 0)
  have hfold : find_parameters err attempts n = some r := by
    unfold find_parameters
    rw [List.range_succ_eq_map, List.map_cons, List.foldl_cons]
    exact hr
  have hbound : ∀ i, i < n + 1 → err r ≤ err (attempts i) := by
    intro i hi
    cases i with
    | zero => exact hle
    | succ j =>
      refine hall (attempts (Nat.succ j)) ?_
      exact List.mem_map.mpr ⟨Nat.succ j,
        List.mem_map.mpr ⟨j, List.mem_range.mpr (Nat.lt_of_succ_lt_succ hi), rfl⟩, rfl⟩
  rcases hmem with rfl | hm
  · exact ⟨0, Nat.succ_pos n, hfold, hbound⟩
  · obtain ⟨m, hmmem, rfl⟩ := List.mem_map.mp hm
    obtain ⟨j, hj, rfl⟩ := List.mem_map.mp hmmem
    exact ⟨Nat.succ j, Nat.succ_lt_succ (List.mem_range.mp hj), hfold, hbound⟩

/-! ## Post-fit angle wrapping in the calibrate entry points (C1) -/

/-- The in-place update parameters[i] %= math.pi * 2.0 used by
CalibrationCameraTop.calibrate (indices 5, 6, 7) and by
CalibrationCameraSideWith2TargetYXZ.calibrate (indices 4, 6, 10, 11, 12,
16, 17, 18): a genuine modulo by 2 * pi. -/
def two_pi_mod (x : ℝ) : ℝ := pymod x (2 * π)

/-- The expression parameters[k] % math.pi * 2.0 used throughout
Calibration.calibrate (lines 1197-1222); by Python operator precedence it
parses as (parameters[k] % math.pi) * 2.0, not as a modulo by 2 * pi. -/
def calWrapRot (x : ℝ) : ℝ := pymod x π * 2

/-- The fields persisted by CalibrationCameraTop.calibrate. -/
structure TopPersisted where
  (cam_focal_length_x cam_focal_length_y : ℝ)
  (cam_pos_x cam_pos_y cam_pos_z : ℝ)
  (cam_rot_x cam_rot_y cam_rot_z : ℝ)

/-- CalibrationCameraTop.calibrate lines 400-412: wrap slots 5, 6, 7 of
the optimizer result by modulo 2 * pi, then persist the eight slots. -/
def top_calibrate_assign (p : ℕ → ℝ) : TopPersisted :=
  let q : ℕ → ℝ := fun i =>
    if i = 5 ∨ i = 6 ∨ i = 7 then two_pi_mod (p i) else p i
  { cam_focal_length_x := q 0, cam_focal_length_y := q 1
    cam_pos_x := q 2, cam_pos_y := q 3, cam_pos_z := q 4
    cam_rot_x := q 5, cam_rot_y := q 6, cam_rot_z := q 7 }

/-- The fields persisted by CalibrationCameraSideWith2TargetYXZ.calibrate. -/
structure SidePersisted where
  (cam_focal_length_x cam_focal_length_y : ℝ)
  (cam_pos_x cam_pos_y : ℝ)
  (cam_rot_x cam_rot_z : ℝ)
  (angle_factor : ℝ)
  (target_1_pos_x target_1_pos_y target_1_pos_z : ℝ)
  (target_1_rot_x target_1_rot_y target_1_rot_z : ℝ)
  (target_2_pos_x target_2_pos_y target_2_pos_z : ℝ)
  (target_2_rot_x target_2_rot_y target_2_rot_z : ℝ)

/-- CalibrationCameraSideWith2TargetYXZ.calibrate lines 721-750: wrap the
slots [4, 6, 10, 11, 12, 16, 17, 18] of the optimizer result by modulo
2 * pi, then persist the nineteen slots.  Note that slot 5 (cam_rot_z) is
not in the wrapped index set while slot 6 (the angle factor) is. -/
def side_calibrate_assign (p : ℕ → ℝ) : SidePersisted :=
  let q : ℕ → ℝ := fun i =>
    if i = 4 ∨ i = 6 ∨ i = 10 ∨ i = 11 ∨ i = 12 ∨ i = 16 ∨ i = 17 ∨ i = 18
    then two_pi_mod (p i) else p i
  { cam_focal_length_x := q 0, cam_focal_length_y := q 1
    cam_pos_x := q 2, cam_pos_y := q 3
    cam_rot_x := q 4, cam_rot_z := q 5
    angle_factor := q 6
    target_1_pos_x := q 7, target_1_pos_y := q 8, target_1_pos_z := q 9
    target_1_rot_x := q 10, target_1_rot_y := q 11, target_1_rot_z := q 12
    target_2_pos_x := q 13, target_2_pos_y := q 14, target_2_pos_z := q 15
    target_2_rot_x := q 16, target_2_rot_y := q 17, target_2_rot_z := q 18 }

/-- The pose of one target of the generalized Calibration variant. -/
structure TargetParameters where
  (pos_x pos_y pos_z rot_x rot_y rot_z : ℝ)

/-- The persisted parameters of one auxiliary camera of the generalized
Calibration variant. -/
structure AuxCameraPersisted where
  (cam_focal_length_x cam_focal_length_y : ℝ)
  (cam_pos_x cam_pos_y cam_pos_z : ℝ)
  (cam_rot_x cam_rot_y cam_rot_z : ℝ)
  (angle_factor : ℝ)

/-- The full persisted parameter set of the generalized Calibration
variant after calibrate. -/
structure CalibrationPersisted where
  (cam_focal_length_x cam_focal_length_y : ℝ)
  (cam_pos_y : ℝ)
  (cam_rot_x cam_rot_y cam_rot_z : ℝ)
  (angle_factor : ℝ)
  (targets : List TargetParameters)
  (others : List AuxCameraPersisted)

/-- Calibration.calibrate lines 1191-1224 for T targets and A auxiliary
cameras: persist the reference-camera slots 0..6, the target slots
7 + i * 6 .. 12 + i * 6 and the auxiliary-camera slots
(7 + T * 6) + i * 8 .. (7 + T * 6) + i * 8 + 7; every rotation slot is
passed through parameters[k] % math.pi * 2.0 (calWrapRot) and each
auxiliary camera receives the shared angle factor from slot 6. -/
def calibration_calibrate_assign (T A : ℕ) (p : ℕ → ℝ) : CalibrationPersisted :=
  { cam_focal_length_x := p 0
    cam_focal_length_y := p 1
    cam_pos_y := p 2
    cam_rot_x := calWrapRot (p 3)
    cam_rot_y := calWrapRot (p 4)
    cam_rot_z := calWrapRot (p 5)
    angle_factor := p 6
    targets := (List.range T).map fun i =>
      { pos_x := p (7 + i * 6), pos_y := p (8 + i * 6), pos_z := p (9 + i * 6)
        rot_x := calWrapRot (p (10 + i * 6))
        rot_y := calWrapRot (p (11 + i * 6))
        rot_z := calWrapRot (p (12 + i * 6)) }
    others := (List.range A).map fun i =>
      { cam_focal_length_x := p (7 + T * 6 + i * 8)
        cam_focal_length_y := p (7 + T * 6 + i * 8 + 1)
        cam_pos_x := p (7 + T * 6 + i * 8 + 2)
        cam_pos_y := p (7 + T * 6 + i * 8 + 3)
        cam_pos_z := p (7 + T * 6 + i * 8 + 4)
        cam_rot_x := calWrapRot (p (7 + T * 6 + i * 8 + 5))
        cam_rot_y := calWrapRot (p (7 + T * 6 + i * 8 + 6))
        cam_rot_z := calWrapRot (p (7 + T * 6 + i * 8 + 7))
        angle_factor := p 6 } }

/-- A converged optimizer result for the side variant carrying the value
7 in slot 5 (cam_rot_z) and slot 6 (the angle factor), zero elsewhere. -/
def sideExampleParams : ℕ → ℝ := fun i => if i = 5 ∨ i = 6 then 7 else 0

/-- A converged optimizer result for the generalized variant carrying the
value 4 in slot 3 (cam_rot_x), zero elsewhere. -/
def calibExampleParams : ℕ → ℝ := fun n => if n = 3 then 4 else 0

/-- Claim C1: the code evaluated at the failing inputs.  The side variant
persists cam_rot_z = 7, which lies outside [0, 2 * pi), and rewrites the
angle factor (a non-rotation field) from 7 to 7 - 2 * pi; the generalized
Calibration variant persists cam_rot_x = (4 % pi) * 2 = 8 - 2 * pi, while
the modulo-2 * pi wrap the claim demands would leave 4 unchanged, and
8 - 2 * pi is not congruent to 4 modulo 2 * pi. -/
theorem calibrate_wrap_bug :
    (side_calibrate_assign sideExampleParams).cam_rot_z = 7 ∧
    2 * π < 7 ∧
    (side_calibrate_assign sideExampleParams).angle_factor = 7 - 2 * π ∧
    (7 - 2 * π : ℝ) ≠ 7 ∧
    (calibration_calibrate_assign 1 0 calibExampleParams).cam_rot_x = 8 - 2 * π ∧
    two_pi_mod 4 = 4 ∧
    (8 - 2 * π : ℝ) ≠ 4 := by
  have h2pi : (0 : ℝ) < 2 * π := by positivity
  have hpi_lt : π < 3.15 := pi_lt_d2
  have hpi_gt : (3 : ℝ) < π := pi_gt_three
  refine ⟨?_, ?_, ?_, ?_, ?_, ?_, ?_⟩
  · show (if (5 : ℕ) = 4 ∨ (5 : ℕ) = 6 ∨ (5 : ℕ) = 10 ∨ (5 : ℕ) = 11 ∨
        (5 : ℕ) = 12 ∨ (5 : ℕ) = 16 ∨ (5 : ℕ) = 17 ∨ (5 : ℕ) = 18
      then two_pi_mod (sideExampleParams 5) else sideExampleParams 5) = 7
    norm_num [sideExampleParams]
  · nlinarith
  · show (if (6 : ℕ) = 4 ∨ (6 : ℕ) = 6 ∨ (6 : ℕ) = 10 ∨ (6 : ℕ) = 11 ∨
        (6 : ℕ) = 12 ∨ (6 : ℕ) = 16 ∨ (6 : ℕ) = 17 ∨ (6 : ℕ) = 18
      then two_pi_mod (sideExampleParams 6) else sideExampleParams 6) = 7 - 2 * π
    have h6 : sideExampleParams 6 = 7 := by norm_num [sideExampleParams]
    rw [if_pos (by norm_num), h6]
    unfold two_pi_mod pymod
    have hfloor : ⌊(7 : ℝ) / (2 * π)⌋ = 1 := by
      rw [Int.floor_eq_iff]
      constructor
      · push_cast
        rw [le_div_iff₀ h2pi]
        nlinarith
      · push_cast
        rw [div_lt_iff₀ h2pi]
        nlinarith
    rw [hfloor]
    push_cast
    ring
  · intro h
    nlinarith [pi_pos]
  · show calWrapRot (calibExampleParams 3) = 8 - 2 * π
    have h3 : calibExampleParams 3 = 4 := by norm_num [calibExampleParams]
    rw [h3]
    unfold calWrapRot pymod
    have hfloor : ⌊(4 : ℝ) / π⌋ = 1 := by
      rw [Int.floor_eq_iff]
      constructor
      · push_cast
        rw [le_div_iff₀ pi_pos]
        nlinarith
      · push_cast
        rw [div_lt_iff₀ pi_pos]
        nlinarith
    rw [hfloor]
    push_cast
    ring
  · exact pymod_eq_self 4 (2 * π) (by norm_num) h2pi (by nlinarith)
  · intro h
    nlinarith

/-! ## The generalized Calibration objective (C4, C5) -/

/-- The image size of one auxiliary camera (the only per-camera data the
objective reads besides the flat vector). -/
structure OtherCameraData where
  (cam_width_image cam_height_image : ℝ)

/-- The observation data held by a Calibration object when fit_function
runs.  Per-angle observations are association lists (angle, corner list),
mirroring the dict.items() iteration of the source; list accesses use a
default value where Python would raise IndexError on ill-formed data. -/
structure CalibrationData where
  (nb_targets : ℕ)
  (clockwise : Bool)
  (origin_mat : M3)
  (cam_width_image cam_height_image : ℝ)
  (targets_points_local_3d : List (List V3))
  (ref_targets_points_2d : List (List (ℝ × List (ℝ × ℝ))))
  (others : List OtherCameraData)
  (others_targets_points_2d : List (List (List (ℝ × List (ℝ × ℝ)))))

/-- Euclidean distance between a projected corner and its observation. -/
def norm2 (a b : ℝ × ℝ) : ℝ := Real.sqrt ((a.1 - b.1) ^ 2 + (a.2 - b.2) ^ 2)

/-- numpy.linalg.norm(pts - ref_pts, axis=1).sum(). -/
def sum_norm_rows (pts ref : List (ℝ × ℝ)) : ℝ :=
  ((pts.zip ref).map fun pr => norm2 pr.1 pr.2).foldl (fun a b => a + b) 0

/-- Map a target's local corner layout to world coordinates through the
target frame and project through the camera frame and pinhole model. -/
def project_target_points (fr_cam fr_target : Frame) (local_pts : List V3)
    (w h fx fy : ℝ) : List (ℝ × ℝ) :=
  local_pts.map fun q =>
    pixel_coordinates (fr_cam.local_point (fr_target.global_point q)) w h fx fy

/-- Calibration.fit_function (calibration.py lines 935-1009), transcribed
with the source's index arithmetic.  In the auxiliary-camera loop the
source reads self._targets_points_local_3d[i], where i is the
auxiliary-camera index, not the target index j; the transcription keeps
that read as written. -/
def calib_fit_function (d : CalibrationData) (x0 : ℕ → ℝ) : ℝ :=
  let fr_cam := camera_frame 0 (x0 2) 0 (x0 3) (x0 4) (x0 5) d.origin_mat
  let refErr := (List.range d.nb_targets).foldl (fun err i =>
    (d.ref_targets_points_2d.getD i []).foldl (fun err obs =>
      let alpha := obs.1 * x0 6
      let alpha2 := if d.clockwise then -alpha else alpha
      let fr_target := target_frame (x0 (7 + i * 6)) (x0 (8 + i * 6))
        (x0 (9 + i * 6)) (x0 (10 + i * 6)) (x0 (11 + i * 6)) (x0 (12 + i * 6))
        (radians alpha2)
      let pts := project_target_points fr_cam fr_target
        (d.targets_points_local_3d.getD i []) d.cam_width_image
        d.cam_height_image (x0 0) (x0 1)
      err + sum_norm_rows pts obs.2) err) 0
  let offset := 7 + d.nb_targets * 6
  let othersErr := (List.range d.others.length).foldl (fun err i =>
    let cam := d.others.getD i ⟨0, 0⟩
    let fr_cam2 := camera_frame (x0 (offset + i * 8 + 2)) (x0 (offset + i * 8 + 3))
      (x0 (offset + i * 8 + 4)) (x0 (offset + i * 8 + 5)) (x0 (offset + i * 8 + 6))
      (x0 (offset + i * 8 + 7)) d.origin_mat
    (List.range d.nb_targets).foldl (fun err j =>
      ((d.others_targets_points_2d.getD i []).getD j []).foldl (fun err obs =>
        let alpha := obs.1 * x0 6
        let alpha2 := if d.clockwise then -alpha else alpha
        let fr_target := target_frame (x0 (7 + j * 6)) (x0 (8 + j * 6))
          (x0 (9 + j * 6)) (x0 (10 + j * 6)) (x0 (11 + j * 6)) (x0 (12 + j * 6))
          (radians alpha2)
        let pts := project_target_points fr_cam2 fr_target
          (d.targets_points_local_3d.getD i [])
          cam.cam_width_image cam.cam_height_image
          (x0 (offset + i * 8)) (x0 (offset + i * 8 + 1))
        err + sum_norm_rows pts obs.2) err) err) 0
  refErr + othersErr

/-- The seven reference-camera values of the flat layout. -/
structure RefCameraParams where
  (cam_focal_length_x cam_focal_length_y : ℝ)
  (cam_pos_y : ℝ)
  (cam_rot_x cam_rot_y cam_rot_z : ℝ)
  (angle_factor : ℝ)

/-- The claimed layout: the seven reference-camera values sit at slots
0 to 6 of the flat vector. -/
def layout_ref (p : ℕ → ℝ) : RefCameraParams :=
  ⟨p 0, p 1, p 2, p 3, p 4, p 5, p 6⟩

/-- The claimed layout: the six pose values of target i sit at offset
7 + i * 6. -/
def layout_target (p : ℕ → ℝ) (i : ℕ) : TargetParameters :=
  ⟨p (7 + i * 6), p (8 + i * 6), p (9 + i * 6),
   p (10 + i * 6), p (11 + i * 6), p (12 + i * 6)⟩

/-- The eight auxiliary-camera values of the flat layout. -/
structure AuxCameraParams where
  (cam_focal_length_x cam_focal_length_y : ℝ)
  (cam_pos_x cam_pos_y cam_pos_z : ℝ)
  (cam_rot_x cam_rot_y cam_rot_z : ℝ)

/-- The claimed layout: the eight values of auxiliary camera j sit at
offset 7 + T * 6 + j * 8, computed from the number of targets T. -/
def layout_aux (T : ℕ) (p : ℕ → ℝ) (j : ℕ) : AuxCameraParams :=
  ⟨p (7 + T * 6 + j * 8), p (7 + T * 6 + j * 8 + 1), p (7 + T * 6 + j * 8 + 2),
   p (7 + T * 6 + j * 8 + 3), p (7 + T * 6 + j * 8 + 4), p (7 + T * 6 + j * 8 + 5),
   p (7 + T * 6 + j * 8 + 6), p (7 + T * 6 + j * 8 + 7)⟩

/-- The objective restated over the unpacked structures of the claimed
layout, with no direct access to the flat vector. -/
def calib_fit_structured (d : CalibrationData) (ref : RefCameraParams)
    (tgt : ℕ → TargetParameters) (aux : ℕ → AuxCameraParams) : ℝ :=
  let fr_cam := camera_frame 0 ref.cam_pos_y 0 ref.cam_rot_x ref.cam_rot_y
    ref.cam_rot_z d.origin_mat
  let refErr := (List.range d.nb_targets).foldl (fun err i =>
    (d.ref_targets_points_2d.getD i []).foldl (fun err obs =>
      let alpha := obs.1 * ref.angle_factor
      let alpha2 := if d.clockwise then -alpha else alpha
      let t := tgt i
      let fr_target := target_frame t.pos_x t.pos_y t.pos_z t.rot_x t.rot_y
        t.rot_z (radians alpha2)
      let pts := project_target_points fr_cam fr_target
        (d.targets_points_local_3d.getD i []) d.cam_width_image
        d.cam_height_image ref.cam_focal_length_x ref.cam_focal_length_y
      err + sum_norm_rows pts obs.2) err) 0
  let othersErr := (List.range d.others.length).foldl (fun err i =>
    let cam := d.others.getD i ⟨0, 0⟩
    let a := aux i
    let fr_cam2 := camera_frame a.cam_pos_x a.cam_pos_y a.cam_pos_z
      a.cam_rot_x a.cam_rot_y a.cam_rot_z d.origin_mat
    (List.range d.nb_targets).foldl (fun err j =>
      ((d.others_targets_points_2d.getD i []).getD j []).foldl (fun err obs =>
        let alpha := obs.1 * ref.angle_factor
        let alpha2 := if d.clockwise then -alpha else alpha
        let t := tgt j
        let fr_target := target_frame t.pos_x t.pos_y t.pos_z t.rot_x t.rot_y
          t.rot_z (radians alpha2)
        let pts := project_target_points fr_cam2 fr_target
          (d.targets_points_local_3d.getD i [])
          cam.cam_width_image cam.cam_height_image
          a.cam_focal_length_x a.cam_focal_length_y
        err + sum_norm_rows pts obs.2) err) err) 0
  refErr + othersErr

/-- Claim C4: the flat parameter vector of the generalized Calibration
variant is laid out as seven reference-camera values, then six values per
target at offset 7 + i * 6, then eight values per auxiliary camera at
offset 7 + T * 6 + j * 8, and both fit_function and calibrate read every
parameter from exactly that slot: the transcribed objective equals the
structured objective fed by the layout unpackers, and the persisted
fields of calibrate are the layout unpackers' values (with the rotation
slots passed through calibrate's wrap expression, and the shared angle
factor copied to every auxiliary camera). -/
theorem calibration_layout (d : CalibrationData) (x0 : ℕ → ℝ) (T A : ℕ)
    (p : ℕ → ℝ) :
    calib_fit_function d x0 =
      calib_fit_structured d (layout_ref x0) (layout_target x0)
        (layout_aux d.nb_targets x0) ∧
    calibration_calibrate_assign T A p =
      { cam_focal_length_x := (layout_ref p).cam_focal_length_x
        cam_focal_length_y := (layout_ref p).cam_focal_length_y
        cam_pos_y := (layout_ref p).cam_pos_y
        cam_rot_x := calWrapRot (layout_ref p).cam_rot_x
        cam_rot_y := calWrapRot (layout_ref p).cam_rot_y
        cam_rot_z := calWrapRot (layout_ref p).cam_rot_z
        angle_factor := (layout_ref p).angle_factor
        targets := (List.range T).map fun i =>
          { pos_x := (layout_target p i).pos_x
            pos_y := (layout_target p i).pos_y
            pos_z := (layout_target p i).pos_z
            rot_x := calWrapRot (layout_target p i).rot_x
            rot_y := calWrapRot (layout_target p i).rot_y
            rot_z := calWrapRot (layout_target p i).rot_z }
        others := (List.range A).map fun j =>
          { cam_focal_length_x := (layout_aux T p j).cam_focal_length_x
            cam_focal_length_y := (layout_aux T p j).cam_focal_length_y
            cam_pos_x := (layout_aux T p j).cam_pos_x
            cam_pos_y := (layout_aux T p j).cam_pos_y
            cam_pos_z := (layout_aux T p j).cam_pos_z
            cam_rot_x := calWrapRot (layout_aux T p j).cam_rot_x
            cam_rot_y := calWrapRot (layout_aux T p j).cam_rot_y
            cam_rot_z := calWrapRot (layout_aux T p j).cam_rot_z
            angle_factor := (layout_ref p).angle_factor } } :=
  ⟨rfl, rfl⟩

/-- The auxiliary-camera part of the objective as claim C5 describes it:
identical to calib_fit_function except that the residual for target j
maps target j's own local corner layout (index j, not the camera index i)
into world coordinates. -/
def calib_fit_function_per_target (d : CalibrationData) (x0 : ℕ → ℝ) : ℝ :=
  let fr_cam := camera_frame 0 (x0 2) 0 (x0 3) (x0 4) (x0 5) d.origin_mat
  let refErr := (List.range d.nb_targets).foldl (fun err i =>
    (d.ref_targets_points_2d.getD i []).foldl (fun err obs =>
      let alpha := obs.1 * x0 6
      let alpha2 := if d.clockwise then -alpha else alpha
      let fr_target := target_frame (x0 (7 + i * 6)) (x0 (8 + i * 6))
        (x0 (9 + i * 6)) (x0 (10 + i * 6)) (x0 (11 + i * 6)) (x0 (12 + i * 6))
        (radians alpha2)
      let pts := project_target_points fr_cam fr_target
        (d.targets_points_local_3d.getD i []) d.cam_width_image
        d.cam_height_image (x0 0) (x0 1)
      err + sum_norm_rows pts obs.2) err) 0
  let offset := 7 + d.nb_targets * 6
  let othersErr := (List.range d.others.length).foldl (fun err i =>
    let cam := d.others.getD i ⟨0, 0⟩
    let fr_cam2 := camera_frame (x0 (offset + i * 8 + 2)) (x0 (offset + i * 8 + 3))
      (x0 (offset + i * 8 + 4)) (x0 (offset + i * 8 + 5)) (x0 (offset + i * 8 + 6))
      (x0 (offset + i * 8 + 7)) d.origin_mat
    (List.range d.nb_targets).foldl (fun err j =>
      ((d.others_targets_points_2d.getD i []).getD j []).foldl (fun err obs =>
        let alpha := obs.1 * x0 6
        let alpha2 := if d.clockwise then -alpha else alpha
        let fr_target := target_frame (x0 (7 + j * 6)) (x0 (8 + j * 6))
          (x0 (9 + j * 6)) (x0 (10 + j * 6)) (x0 (11 + j * 6)) (x0 (12 + j * 6))
          (radians alpha2)
        let pts := project_target_points fr_cam2 fr_target
          (d.targets_points_local_3d.getD j [])
          cam.cam_width_image cam.cam_height_image
          (x0 (offset + i * 8)) (x0 (offset + i * 8 + 1))
        err + sum_norm_rows pts obs.2) err) err) 0
  refErr + othersErr

theorem global_point_id (p : V3) :
    Frame.global_point { rotation := 1, origin := ![0, 0, 0] } p = p := by
  unfold Frame.global_point
  rw [vec3_zero, Matrix.one_mulVec, add_zero]

theorem radians_zero : radians 0 = 0 := by
  unfold radians
  ring

theorem target_frame_zero :
    target_frame 0 0 0 0 0 0 0 = { rotation := 1, origin := ![0, 0, 0] } := by
  unfold target_frame
  congr 1
  · have h : concatenate_matrices [Rz (0 + 0), Rx 0, Ry 0] =
        1 * Rz (0 + 0) * Rx 0 * Ry 0 := rfl
    rw [h, show (0 : ℝ) + 0 = 0 from by norm_num, Rx_zero, Ry_zero, Rz_zero,
      one_mul, mul_one, mul_one, Matrix.transpose_one]
  · funext i
    fin_cases i <;>
      simp [Matrix.cons_val_zero, Matrix.cons_val_one, Matrix.head_cons,
        Matrix.cons_val_two, Matrix.vecHead, Matrix.vecTail]

/-- The observation data of a Calibration object with two targets whose
local corner layouts differ (target 0's single corner is (0,0,1), target
1's is (1,0,1)), one auxiliary camera, no reference-camera observations,
and a single observation of target 1 by the auxiliary camera at turntable
angle 0 with observed corner (0,0). -/
def exampleCalibData : CalibrationData :=
  { nb_targets := 2
    clockwise := false
    origin_mat := 1
    cam_width_image := 0, cam_height_image := 0
    targets_points_local_3d := [[![0, 0, 1]], [![1, 0, 1]]]
    ref_targets_points_2d := [[], []]
    others := [{ cam_width_image := 0, cam_height_image := 0 }]
    others_targets_points_2d := [[[], [(0, [(0, 0)])]]] }

/-- The flat vector for exampleCalibData: both focal lengths of the
auxiliary camera (slots 19 and 20) are 1, everything else 0. -/
def exampleX0 : ℕ → ℝ := fun n => if n = 19 ∨ n = 20 then 1 else 0

/-- Claim C5: the code evaluated at the failing input.  With target
layouts [[(0,0,1)], [(1,0,1)]] and the single auxiliary-camera
observation of target 1, fit_function projects target 0's layout (the
camera index is 0) and returns residual 0, whereas building the residual
from target 1's own layout gives residual 1. -/
theorem calib_fit_wrong_target_layout :
    calib_fit_function exampleCalibData exampleX0 = 0 ∧
    calib_fit_function_per_target exampleCalibData exampleX0 = 1 := by
  have hrad : radians ((0 : ℝ) * 0) = 0 := by
    rw [mul_zero, radians_zero]
  constructor
  · have e1 : calib_fit_function exampleCalibData exampleX0 =
        0 + (0 + sum_norm_rows (project_target_points
          (camera_frame 0 0 0 0 0 0 1)
          (target_frame 0 0 0 0 0 0 (radians (0 * 0)))
          [![0, 0, 1]] 0 0 1 1) [(0, 0)]) := rfl
    rw [e1, hrad, camera_frame_id, target_frame_zero]
    unfold project_target_points sum_norm_rows norm2
    rw [List.map_cons, List.map_nil, global_point_id, local_point_id]
    norm_num [pixel_coordinates, Matrix.cons_val_zero, Matrix.cons_val_one,
      Matrix.cons_val_two, Matrix.head_cons, Matrix.vecHead, Matrix.vecTail]
  · have e2 : calib_fit_function_per_target exampleCalibData exampleX0 =
        0 + (0 + sum_norm_rows (project_target_points
          (camera_frame 0 0 0 0 0 0 1)
          (target_frame 0 0 0 0 0 0 (radians (0 * 0)))
          [![1, 0, 1]] 0 0 1 1) [(0, 0)]) := rfl
    rw [e2, hrad, camera_frame_id, target_frame_zero]
    unfold project_target_points sum_norm_rows norm2
    rw [List.map_cons, List.map_nil, global_point_id, local_point_id]
    norm_num [pixel_coordinates, Matrix.cons_val_zero, Matrix.cons_val_one,
      Matrix.cons_val_two, Matrix.head_cons, Matrix.vecHead, Matrix.vecTail]

/-! ## Persistence (C3, C9) -/

/-- A persisted camera record, as read back by load: the eleven scalar
keys live in an association list (a key is missing when absent from the
list) and the cam_origin_axis key holds the flat list of its values (or
is missing).  Values are restricted to well-typed numeric content; the
claims settled against this model concern key presence and numeric
round-trips only.  The float32 cast that load applies to the origin-axis
array is a serialization-precision detail outside the real-number model. -/
structure CameraRecord where
  (entries : List (String × ℝ))
  (cam_origin_axis : Option (List ℝ))

/-- The keys CalibrationCamera.load reads (calibration.py lines 214-236). -/
def requiredCameraKeys : List String :=
  ["cam_width_image", "cam_height_image", "cam_focal_length_x",
   "cam_focal_length_y", "cam_pos_x", "cam_pos_y", "cam_pos_z",
   "cam_rot_x", "cam_rot_y", "cam_rot_z", "angle_factor", "cam_origin_axis"]

/-- Whether a record contains a given key. -/
def CameraRecord.has (r : CameraRecord) (k : String) : Bool :=
  if k = "cam_origin_axis" then r.cam_origin_axis.isSome
  else (r.entries.lookup k).isSome

/-- The numeric state of a loaded CalibrationCamera; the origin-axis
matrix is kept as its flat list of 16 values. -/
structure CameraState where
  (cam_width_image cam_height_image : ℝ)
  (cam_focal_length_x cam_focal_length_y : ℝ)
  (cam_pos_x cam_pos_y cam_pos_z : ℝ)
  (cam_rot_x cam_rot_y cam_rot_z : ℝ)
  (angle_factor : ℝ)
  (cam_origin_axis : List ℝ)

/-- CalibrationCamera.load (calibration.py lines 214-236): each
save_class[key] access raises KeyError when the key is absent, and
numpy.array(...).reshape((4,4)) raises when the axis list does not hold
exactly 16 values.  Errors propagate; no field is ever defaulted. -/
def load_camera (r : CameraRecord) : Except String CameraState :=
  match r.entries.lookup "cam_width_image" with
  | none => Except.error ("KeyError: " ++ "cam_width_image")
  | some w =>
    match r.entries.lookup "cam_height_image" with
    | none => Except.error ("KeyError: " ++ "cam_height_image")
    | some h =>
      match r.entries.lookup "cam_focal_length_x" with
      | none => Except.error ("KeyError: " ++ "cam_focal_length_x")
      | some fx =>
        match r.entries.lookup "cam_focal_length_y" with
        | none => Except.error ("KeyError: " ++ "cam_focal_length_y")
        | some fy =>
          match r.entries.lookup "cam_pos_x" with
          | none => Except.error ("KeyError: " ++ "cam_pos_x")
          | some px =>
            match r.entries.lookup "cam_pos_y" with
            | none => Except.error ("KeyError: " ++ "cam_pos_y")
            | some py =>
              match r.entries.lookup "cam_pos_z" with
              | none => Except.error ("KeyError: " ++ "cam_pos_z")
              | some pz =>
                match r.entries.lookup "cam_rot_x" with
                | none => Except.error ("KeyError: " ++ "cam_rot_x")
                | some rx =>
                  match r.entries.lookup "cam_rot_y" with
                  | none => Except.error ("KeyError: " ++ "cam_rot_y")
                  | some ry =>
                    match r.entries.lookup "cam_rot_z" with
                    | none => Except.error ("KeyError: " ++ "cam_rot_z")
                    | some rz =>
                      match r.entries.lookup "angle_factor" with
                      | none => Except.error ("KeyError: " ++ "angle_factor")
                      | some af =>
                        match r.cam_origin_axis with
                        | none => Except.error ("KeyError: " ++ "cam_origin_axis")
                        | some axisList =>
                          if axisList.length = 16 then
                            Except.ok ⟨w, h, fx, fy, px, py, pz, rx, ry, rz, af, axisList⟩
                          else
                            Except.error ("ValueError: " ++ "cam_origin_axis")

/-- CalibrationCamera.dump (calibration.py lines 238-259): every numeric
field is written under its key and the origin axis is flattened to its
16-value list. -/
def dump_camera (c : CameraState) : CameraRecord :=
  { entries :=
      [("cam_width_image", c.cam_width_image),
       ("cam_height_image", c.cam_height_image),
       ("cam_focal_length_x", c.cam_focal_length_x),
       ("cam_focal_length_y", c.cam_focal_length_y),
       ("cam_pos_x", c.cam_pos_x),
       ("cam_pos_y", c.cam_pos_y),
       ("cam_pos_z", c.cam_pos_z),
       ("cam_rot_x", c.cam_rot_x),
       ("cam_rot_y", c.cam_rot_y),
       ("cam_rot_z", c.cam_rot_z),
       ("angle_factor", c.angle_factor)]
    cam_origin_axis := some c.cam_origin_axis }

theorem load_dump_camera (c : CameraState)
    (hlen : c.cam_origin_axis.length = 16) :
    load_camera (dump_camera c) = Except.ok c := by
  have h : load_camera (dump_camera c) =
      if c.cam_origin_axis.length = 16 then Except.ok c
      else Except.error ("ValueError: " ++ "cam_origin_axis") := rfl
  rw [h, if_pos hlen]

/-- The full state of a generalized Calibration object relevant to
persistence: the reference camera's numeric fields, the per-target poses,
and the auxiliary cameras (each with a full camera state of its own). -/
structure CalibrationObjState where
  (camera : CameraState)
  (nb_targets : ℕ)
  (targets : List TargetParameters)
  (others : List CameraState)

/-- The record written by Calibration.dump (calibration.py lines
1235-1258): the reference camera's keys plus targets_parameters, a list
of per-target records keyed by the underscored attribute names.  The
auxiliary cameras (_others) are not written at all. -/
structure CalibrationRecord where
  (camera : CameraRecord)
  (targets_parameters : Option (List (List (String × ℝ))))

/-- One element of targets_parameters: t.__dict__ as a key-value list. -/
def dump_target (t : TargetParameters) : List (String × ℝ) :=
  [("_pos_x", t.pos_x), ("_pos_y", t.pos_y), ("_pos_z", t.pos_z),
   ("_rot_x", t.rot_x), ("_rot_y", t.rot_y), ("_rot_z", t.rot_z)]

/-- Reading one target record back (Calibration.load lines 1282-1293). -/
def load_target (l : List (String × ℝ)) : Except String TargetParameters :=
  match l.lookup "_pos_x" with
  | none => Except.error ("KeyError: " ++ "_pos_x")
  | some px =>
    match l.lookup "_pos_y" with
    | none => Except.error ("KeyError: " ++ "_pos_y")
    | some py =>
      match l.lookup "_pos_z" with
      | none => Except.error ("KeyError: " ++ "_pos_z")
      | some pz =>
        match l.lookup "_rot_x" with
        | none => Except.error ("KeyError: " ++ "_rot_x")
        | some rx =>
          match l.lookup "_rot_y" with
          | none => Except.error ("KeyError: " ++ "_rot_y")
          | some ry =>
            match l.lookup "_rot_z" with
            | none => Except.error ("KeyError: " ++ "_rot_z")
            | some rz => Except.ok ⟨px, py, pz, rx, ry, rz⟩

/-- Calibration.dump: reference camera keys plus targets_parameters; the
auxiliary cameras of the object are ignored. -/
def dump_calibration (s : CalibrationObjState) : CalibrationRecord :=
  { camera := dump_camera s.camera
    targets_parameters := some (s.targets.map dump_target) }

/-- Calibration.load (calibration.py lines 1260-1295): builds
Calibration(len(save_class[targets_parameters])) — whose constructor with
the default nb_cameras = 1 creates no auxiliary cameras — then reads the
reference camera keys and the per-target records.  The loaded object
therefore always has an empty auxiliary-camera list. -/
def load_calibration (r : CalibrationRecord) : Except String CalibrationObjState :=
  match r.targets_parameters with
  | none => Except.error ("KeyError: " ++ "targets_parameters")
  | some tps =>
    match load_camera r.camera with
    | Except.error e => Except.error e
    | Except.ok cam =>
      match tps.mapM load_target with
      | Except.error e => Except.error e
      | Except.ok targets =>
        Except.ok { camera := cam, nb_targets := tps.length,
                    targets := targets, others := [] }

theorem load_dump_target (t : TargetParameters) :
    load_target (dump_target t) = Except.ok t := rfl

theorem mapM_load_dump_target (ts : List TargetParameters) :
    (ts.map dump_target).mapM load_target = Except.ok ts := by
  induction ts with
  | nil => rfl
  | cons t rest ih =>
    rw [List.map_cons, List.mapM_cons, load_dump_target, ih]
    rfl

/-- Claim C3 (amended): for every populated calibration state,
load(dump(c)) reproduces every numeric camera field, the origin-axis
values and every per-target pose exactly (in this real-number model), but
the generalized Calibration variant's auxiliary cameras are not
serialized by dump: load returns a state whose auxiliary-camera list is
empty regardless of the cameras c held. -/
theorem calibration_roundtrip_amended :
    (∀ c : CameraState, c.cam_origin_axis.length = 16 →
      load_camera (dump_camera c) = Except.ok c) ∧
    (∀ s : CalibrationObjState, s.camera.cam_origin_axis.length = 16 →
      load_calibration (dump_calibration s) =
        Except.ok { camera := s.camera, nb_targets := s.targets.length,
                    targets := s.targets, others := [] }) := by
  refine ⟨load_dump_camera, ?_⟩
  intro s hlen
  have e : load_calibration (dump_calibration s) =
      (match load_camera (dump_camera s.camera) with
      | Except.error e => Except.error e
      | Except.ok cam =>
        match (s.targets.map dump_target).mapM load_target with
        | Except.error e => Except.error e
        | Except.ok targets =>
          Except.ok { camera := cam,
                      nb_targets := (s.targets.map dump_target).length,
                      targets := targets, others := [] }) := rfl
  rw [e, load_dump_camera s.camera hlen, mapM_load_dump_target]
  simp [List.length_map]

/-- A populated auxiliary camera state with a 16-value origin axis. -/
def exampleAuxCamera : CameraState :=
  ⟨0, 0, 0, 0, 0, 0, 0, 0, 0, 0, 0, List.replicate 16 0⟩

/-- A populated generalized Calibration state holding one auxiliary
camera. -/
def exampleCalibObj : CalibrationObjState :=
  { camera := ⟨0, 0, 0, 0, 0, 0, 0, 0, 0, 0, 0, List.replicate 16 0⟩
    nb_targets := 0
    targets := []
    others := [exampleAuxCamera] }

/-- Claim C3 counterexample: for the populated Calibration state holding
one auxiliary camera, load(dump(c)) does not reproduce c — the
auxiliary-camera parameters are lost. -/
theorem calibration_dump_drops_others :
    load_calibration (dump_calibration exampleCalibObj) ≠
      Except.ok exampleCalibObj := by
  intro h
  have e : load_calibration (dump_calibration exampleCalibObj) =
      Except.ok { camera := exampleCalibObj.camera, nb_targets := 0,
                  targets := [], others := [] } := rfl
  rw [e] at h
  injection h with h2
  have h3 := congrArg CalibrationObjState.others h2
  simp [exampleCalibObj] at h3

/-- Claim C3 witness: the amended round-trip applied to a concrete
camera state. -/
theorem calibration_roundtrip_witness :
    load_camera (dump_camera exampleAuxCamera) = Except.ok exampleAuxCamera :=
  calibration_roundtrip_amended.1 exampleAuxCamera (by simp [exampleAuxCamera])

/-- Claim C9: when any required key is absent from a persisted camera
record, load fails with a KeyError naming a missing required key; and
whenever load succeeds, every field of the returned object is the value
stored in the record under the corresponding key — no missing field is
ever silently defaulted. -/
theorem load_camera_missing_key :
    (∀ r : CameraRecord,
      (∃ k ∈ requiredCameraKeys, r.has k = false) →
      ∃ k ∈ requiredCameraKeys, r.has k = false ∧
        load_camera r = Except.error ("KeyError: " ++ k)) ∧
    (∀ (r : CameraRecord) (c : CameraState), load_camera r = Except.ok c →
      r.entries.lookup "cam_width_image" = some c.cam_width_image ∧
      r.entries.lookup "cam_height_image" = some c.cam_height_image ∧
      r.entries.lookup "cam_focal_length_x" = some c.cam_focal_length_x ∧
      r.entries.lookup "cam_focal_length_y" = some c.cam_focal_length_y ∧
      r.entries.lookup "cam_pos_x" = some c.cam_pos_x ∧
      r.entries.lookup "cam_pos_y" = some c.cam_pos_y ∧
      r.entries.lookup "cam_pos_z" = some c.cam_pos_z ∧
      r.entries.lookup "cam_rot_x" = some c.cam_rot_x ∧
      r.entries.lookup "cam_rot_y" = some c.cam_rot_y ∧
      r.entries.lookup "cam_rot_z" = some c.cam_rot_z ∧
      r.entries.lookup "angle_factor" = some c.angle_factor ∧
      r.cam_origin_axis = some c.cam_origin_axis) := by
  constructor
  · intro r hex
    cases h1 : r.entries.lookup "cam_width_image" with
    | none =>
      exact ⟨"cam_width_image", by simp [requiredCameraKeys],
        by simp [CameraRecord.has, h1],
        by simp only [load_camera, h1]⟩
    | some v1 =>
      cases h2 : r.entries.lookup "cam_height_image" with
      | none =>
        exact ⟨"cam_height_image", by simp [requiredCameraKeys],
          by simp [CameraRecord.has, h2],
          by simp only [load_camera, h1, h2]⟩
      | some v2 =>
        cases h3 : r.entries.lookup "cam_focal_length_x" with
        | none =>
          exact ⟨"cam_focal_length_x", by simp [requiredCameraKeys],
            by simp [CameraRecord.has, h3],
            by simp only [load_camera, h1, h2, h3]⟩
        | some v3 =>
          cases h4 : r.entries.lookup "cam_focal_length_y" with
          | none =>
            exact ⟨"cam_focal_length_y", by simp [requiredCameraKeys],
              by simp [CameraRecord.has, h4],
              by simp only [load_camera, h1, h2, h3, h4]⟩
          | some v4 =>
            cases h5 : r.entries.lookup "cam_pos_x" with
            | none =>
              exact ⟨"cam_pos_x", by simp [requiredCameraKeys],
                by simp [CameraRecord.has, h5],
                by simp only [load_camera, h1, h2, h3, h4, h5]⟩
            | some v5 =>
              cases h6 : r.entries.lookup "cam_pos_y" with
              | none =>
                exact ⟨"cam_pos_y", by simp [requiredCameraKeys],
                  by simp [CameraRecord.has, h6],
                  by simp only [load_camera, h1, h2, h3, h4, h5, h6]⟩
              | some v6 =>
                cases h7 : r.entries.lookup "cam_pos_z" with
                | none =>
                  exact ⟨"cam_pos_z", by simp [requiredCameraKeys],
                    by simp [CameraRecord.has, h7],
                    by simp only [load_camera, h1, h2, h3, h4, h5, h6, h7]⟩
                | some v7 =>
                  cases h8 : r.entries.lookup "cam_rot_x" with
                  | none =>
                    exact ⟨"cam_rot_x", by simp [requiredCameraKeys],
                      by simp [CameraRecord.has, h8],
                      by simp only [load_camera, h1, h2, h3, h4, h5, h6, h7, h8]⟩
                  | some v8 =>
                    cases h9 : r.entries.lookup "cam_rot_y" with
                    | none =>
                      exact ⟨"cam_rot_y", by simp [requiredCameraKeys],
                        by simp [CameraRecord.has, h9],
                        by simp only [load_camera, h1, h2, h3, h4, h5, h6, h7, h8, h9]⟩
                    | some v9 =>
                      cases h10 : r.entries.lookup "cam_rot_z" with
                      | none =>
                        exact ⟨"cam_rot_z", by simp [requiredCameraKeys],
                          by simp [CameraRecord.has, h10],
                          by simp only [load_camera, h1, h2, h3, h4, h5, h6, h7, h8, h9, h10]⟩
                      | some v10 =>
                        cases h11 : r.entries.lookup "angle_factor" with
                        | none =>
                          exact ⟨"angle_factor", by simp [requiredCameraKeys],
                            by simp [CameraRecord.has, h11],
                            by simp only [load_camera, h1, h2, h3, h4, h5, h6, h7, h8, h9, h10, h11]⟩
                        | some v11 =>
                          cases hax : r.cam_origin_axis with
                          | none =>
                            exact ⟨"cam_origin_axis", by simp [requiredCameraKeys],
                              by simp [CameraRecord.has, hax],
                              by simp only [load_camera, h1, h2, h3, h4, h5, h6, h7, h8, h9, h10, h11, hax]⟩
                          | some axisList =>
                            obtain ⟨k, hk, hkf⟩ := hex
                            simp only [requiredCameraKeys, List.mem_cons, List.not_mem_nil, or_false] at hk
                            rcases hk with rfl | rfl | rfl | rfl | rfl | rfl | rfl | rfl | rfl | rfl | rfl | rfl <;>
                              simp [CameraRecord.has, h1, h2, h3, h4, h5, h6, h7, h8, h9, h10, h11, hax] at hkf
  · intro r c hok
    cases h1 : r.entries.lookup "cam_width_image" with
    | none =>
      simp only [load_camera, h1] at hok
      exact Except.noConfusion hok
    | some v1 =>
      cases h2 : r.entries.lookup "cam_height_image" with
      | none =>
        simp only [load_camera, h1, h2] at hok
        exact Except.noConfusion hok
      | some v2 =>
        cases h3 : r.entries.lookup "cam_focal_length_x" with
        | none =>
          simp only [load_camera, h1, h2, h3] at hok
          exact Except.noConfusion hok
        | some v3 =>
          cases h4 : r.entries.lookup "cam_focal_length_y" with
          | none =>
            simp only [load_camera, h1, h2, h3, h4] at hok
            exact Except.noConfusion hok
          | some v4 =>
            cases h5 : r.entries.lookup "cam_pos_x" with
            | none =>
              simp only [load_camera, h1, h2, h3, h4, h5] at hok
              exact Except.noConfusion hok
            | some v5 =>
              cases h6 : r.entries.lookup "cam_pos_y" with
              | none =>
                simp only [load_camera, h1, h2, h3, h4, h5, h6] at hok
                exact Except.noConfusion hok
              | some v6 =>
                cases h7 : r.entries.lookup "cam_pos_z" with
                | none =>
                  simp only [load_camera, h1, h2, h3, h4, h5, h6, h7] at hok
                  exact Except.noConfusion hok
                | some v7 =>
                  cases h8 : r.entries.lookup "cam_rot_x" with
                  | none =>
                    simp only [load_camera, h1, h2, h3, h4, h5, h6, h7, h8] at hok
                    exact Except.noConfusion hok
                  | some v8 =>
                    cases h9 : r.entries.lookup "cam_rot_y" with
                    | none =>
                      simp only [load_camera, h1, h2, h3, h4, h5, h6, h7, h8, h9] at hok
                      exact Except.noConfusion hok
                    | some v9 =>
                      cases h10 : r.entries.lookup "cam_rot_z" with
                      | none =>
                        simp only [load_camera, h1, h2, h3, h4, h5, h6, h7, h8, h9, h10] at hok
                        exact Except.noConfusion hok
                      | some v10 =>
                        cases h11 : r.entries.lookup "angle_factor" with
                        | none =>
                          simp only [load_camera, h1, h2, h3, h4, h5, h6, h7, h8, h9, h10, h11] at hok
                          exact Except.noConfusion hok
                        | some v11 =>
                          cases hax : r.cam_origin_axis with
                          | none =>
                            simp only [load_camera, h1, h2, h3, h4, h5, h6, h7, h8, h9, h10, h11, hax] at hok
                            exact Except.noConfusion hok
                          | some axisList =>
                            have e : load_camera r =
                                (if axisList.length = 16 then
                                  Except.ok ⟨v1, v2, v3, v4, v5, v6, v7, v8, v9, v10, v11, axisList⟩
                                else Except.error ("ValueError: " ++ "cam_origin_axis")) := by
                              simp only [load_camera, h1, h2, h3, h4, h5, h6, h7, h8, h9, h10, h11, hax]
                            rw [e] at hok
                            by_cases hlen : axisList.length = 16
                            · rw [if_pos hlen] at hok
                              injection hok with hc
                              subst hc
                              exact ⟨rfl, rfl, rfl, rfl, rfl, rfl, rfl, rfl, rfl, rfl, rfl, rfl⟩
                            · rw [if_neg hlen] at hok
                              exact Except.noConfusion hok

/-- A record holding only cam_width_image, so the first missing required
key in load order is cam_height_image. -/
def exampleBadRecord : CameraRecord :=
  { entries := [("cam_width_image", 1)], cam_origin_axis := none }

/-- Claim C9 witness: loading the record that is missing
cam_height_image fails with a KeyError naming a missing required key. -/
theorem load_camera_missing_key_witness :
    ∃ k ∈ requiredCameraKeys, exampleBadRecord.has k = false ∧
      load_camera exampleBadRecord = Except.error ("KeyError: " ++ k) :=
  load_camera_missing_key.1 exampleBadRecord
    ⟨"cam_height_image", by simp [requiredCameraKeys], rfl⟩

end Phenomenal
